import Mathlib

/-!
Verification of the substrate-stellar-sdk operation constructors, claimable
balance id conversions and the Horizon fetch layer, as a shallow embedding of
the Rust sources (`src/xdr/impls/operations/*.rs`,
`src/xdr/impls/claimable_balance_id.rs`, `src/error.rs`, `src/horizon/fetch.rs`).
Bytes are modelled as `Nat`, byte strings as `List Nat`, `u8` inputs as
`Fin 256`, fallible Rust functions returning `Result<T, E>` as `Except E T`.
-/

/-- Model of `ParseIntError` from `core::num` (opaque payload carried by
`FetchError::ParseIntError`; its structure is irrelevant to the claims). -/
structure ParseIntError where
  deriving DecidableEq, Repr

/-- Model of `ParseFloatError` from `core::num` (opaque payload carried by
`FetchError::ParseFloatError`). -/
structure ParseFloatError where
  deriving DecidableEq, Repr

/-- Model of `DecodeError` of the XDR codec. Modelled from the spec: the binary
codec (§4.1) is not under `src/`; decoding a discriminated union fails on a bad
tag, and fixed-length reads fail on a length mismatch. -/
inductive DecodeError where
  | badDiscriminant : DecodeError
  | wrongLength : DecodeError
  deriving DecidableEq, Repr

/-- Model of `AccountId` (= `PublicKey`). Modelled from the spec: a RawKey
variant, an ed25519 public key; its payload is opaque for these claims. -/
inductive AccountId where
  | PublicKeyTypeEd25519 (key : List Nat) : AccountId
  deriving DecidableEq, Repr

/-- Model of `MuxedAccount`. Modelled from the spec: an account key optionally
carrying a 64-bit multiplexing id. -/
inductive MuxedAccount where
  | KeyTypeEd25519 (key : List Nat) : MuxedAccount
  | KeyTypeMuxedEd25519 (id : Nat) (key : List Nat) : MuxedAccount
  deriving DecidableEq, Repr

/-- Model of `ClaimableBalanceId` from `types.rs`: a discriminated union with
the single variant `ClaimableBalanceIdTypeV0` holding a 32-byte hash (spec:
a 4-byte type tag + 32-byte identifier). -/
inductive ClaimableBalanceId where
  | ClaimableBalanceIdTypeV0 (hash : List Nat) : ClaimableBalanceId
  deriving DecidableEq, Repr

/-- Model of `Signer` (a signer key plus a weight); its internals are opaque
for the claims about operation constructors. -/
structure Signer where
  key : List Nat
  weight : Nat
  deriving DecidableEq, Repr

/-- Model of `DataValue` (`LimitedVarOpaque<64>`), the converted manage-data
value; opaque payload for these claims. -/
structure DataValue where
  bytes : List Nat
  deriving DecidableEq, Repr

/-- Model of `FetchError` from `src/horizon/fetch.rs` lines 32-54, variant for
variant. -/
inductive FetchError where
  | DeadlineReached : FetchError
  | IoError : FetchError
  | Invalid : FetchError
  | Unknown : FetchError
  | UnexpectedResponseStatus (status : Nat) (body : List Nat) : FetchError
  | JsonParseError : FetchError
  | InvalidSequenceNumber : FetchError
  | ParseIntError (e : ParseIntError) : FetchError
  | ParseFloatError (e : ParseFloatError) : FetchError
  | AccountRequiredMemo (a : AccountId) : FetchError
  deriving DecidableEq, Repr

/-- Alias for `FetchError`, usable where the name is shadowed by the
`StellarSdkError.FetchError` constructor. -/
abbrev HorizonFetchError : Type := FetchError

/-- Model of `StellarSdkError` from `src/error.rs`, variant for variant.
`DecodeError` and `FromHexError` payloads are opaque; the feature-conditional
`FetchError` variant (behind `feature = "offchain"`) is present because the
`src/horizon` module is part of the sources under study. -/
inductive StellarSdkError where
  | InvalidBase32Character (at_position : Nat) : StellarSdkError
  | InvalidStellarKeyEncoding : StellarSdkError
  | InvalidStellarKeyEncodingLength : StellarSdkError
  | InvalidStellarKeyEncodingVersion (expected_version : Char) (found_version : Char) : StellarSdkError
  | InvalidStellarKeyChecksum (expected : Nat) (found : Nat) : StellarSdkError
  | InvalidSignatureLength (found_length : Nat) (expected_length : Nat) : StellarSdkError
  | PublicKeyCantVerify : StellarSdkError
  | InvalidBase64Encoding : StellarSdkError
  | TooManySignatures : StellarSdkError
  | UnknownSignerKey (key : String) : StellarSdkError
  | AssetCodeTooLong : StellarSdkError
  | InvalidAssetCodeCharacter : StellarSdkError
  | ExceedsMaximumLength (requested_length : Nat) (allowed_length : Int) : StellarSdkError
  | InvalidHexEncoding : StellarSdkError
  | InvalidHashLength (found_length : Nat) (expected_length : Nat) : StellarSdkError
  | NotApproximableAsFraction : StellarSdkError
  | InvalidPrice : StellarSdkError
  | InvalidTrustLineLimit : StellarSdkError
  | InvalidAuthorizeFlag : StellarSdkError
  | InvalidAmountString : StellarSdkError
  | AmountOverflow : StellarSdkError
  | AmountNegative : StellarSdkError
  | AmountNonPositive : StellarSdkError
  | InvalidBinaryLength (found_length : Nat) (expected_length : Nat) : StellarSdkError
  | InvalidBalanceId : StellarSdkError
  | EmptyClaimants : StellarSdkError
  | InvalidSignerWeight : StellarSdkError
  | CantWrapFeeBumpTransaction : StellarSdkError
  | FetchError (e : HorizonFetchError) : StellarSdkError
  deriving DecidableEq, Repr

/-- `impl From<FetchError> for StellarSdkError` (`src/horizon/fetch.rs` lines
66-70): wraps the fetch error in the `FetchError` variant. -/
def StellarSdkError.ofFetchError (e : HorizonFetchError) : StellarSdkError :=
  StellarSdkError.FetchError e

/-- Whether a `StellarSdkError` value wraps or carries a Network Client
(fetch) error. -/
def StellarSdkError.carriesFetchError : StellarSdkError → Bool
  | StellarSdkError.FetchError _ => true
  | _ => false

/-- Model of `LimitedString<N>` from `compound_types.rs`. Modelled from the
spec: a byte string bounded by a protocol-fixed maximum length `N`
(`compound_types.rs` is not under `src/`). -/
structure LimitedString (N : Nat) where
  bytes : List Nat
  deriving DecidableEq, Repr

/-- Model of `LimitedString::<N>::new`. Modelled from the spec: any violation
of the protocol-fixed maximum length fails the constructor, with the
`ExceedsMaximumLength` error from `src/error.rs`. -/
def LimitedString.new (N : Nat) (bytes : List Nat) :
    Except StellarSdkError (LimitedString N) :=
  if bytes.length ≤ N then Except.ok ⟨bytes⟩
  else Except.error (StellarSdkError.ExceedsMaximumLength bytes.length (Int.ofNat N))

/-- Modelled from the spec: the protocol-fixed maximum byte length of a
set-options home domain (`compound_types.rs` is not under `src/`; the exact
bound is irrelevant to the claims, which speak of "the protocol string
limit"). -/
def homeDomainMaxLength : Nat := 32

/-- Modelled from the spec: the protocol-fixed maximum byte length of a
manage-data data name. -/
def dataNameMaxLength : Nat := 64

/-- Model of the trait `IntoAccountId` ("convertible to an account id"
capability, spec §4.4/§9): a single fallible conversion method, plus
`into_encoding` producing the key's string encoding as bytes (used by
`Horizon::fetch_account`). -/
class IntoAccountId (T : Type) where
  into_account_id : T → Except StellarSdkError AccountId
  into_encoding : T → List Nat

/-- Model of the trait `IntoMuxedAccountId` ("convertible to a muxed account
id" capability, spec §4.4/§9). -/
class IntoMuxedAccountId (T : Type) where
  into_muxed_account_id : T → Except StellarSdkError MuxedAccount

/-- Model of the trait `AsDataValue`: fallible conversion to a manage-data
value. -/
class AsDataValue (S : Type) where
  as_data_value : S → Except StellarSdkError DataValue

/-- Model of Rust's `AsRef<[u8]>` bound: a view of the argument as bytes
(`as_ref().to_vec()` in the source is this view followed by an owning copy,
which is the identity in the model). -/
class AsRef (T : Type) where
  as_ref : T → List Nat

/-- A byte list is its own byte view. -/
instance : AsRef (List Nat) where
  as_ref bs := bs

/-- An `AccountId` converts to itself (the identity capability instance;
modelled from the spec's "implemented by each concrete key/account
representation"). Its encoding payload is opaque here. -/
instance : IntoAccountId AccountId where
  into_account_id a := Except.ok a
  into_encoding a := match a with
    | AccountId.PublicKeyTypeEd25519 key => key

/-- A `MuxedAccount` converts to itself (identity capability instance). -/
instance : IntoMuxedAccountId MuxedAccount where
  into_muxed_account_id m := Except.ok m

/-- A `DataValue` converts to itself (identity capability instance). -/
instance : AsDataValue DataValue where
  as_data_value v := Except.ok v

/-- Rust's `opt.map(f).transpose()` on fallible `f`: convert the payload of an
optional value, propagating a conversion failure (also the meaning of the
source's `match { Some(x) => Some(f(x)?), None => None }` blocks). -/
def mapTranspose {ε α β : Type} (f : α → Except ε β) : Option α → Except ε (Option β)
  | some a => (f a).map some
  | none => Except.ok none

/-- Model of `SetOptionsOp` from `types.rs` with the fields assembled by
`Operation::new_set_options` (`src/xdr/impls/operations/set_options.rs` lines
33-43); the four weight/threshold fields are `u32` in the XDR type. -/
structure SetOptionsOp where
  inflation_dest : Option AccountId
  clear_flags : Option Nat
  set_flags : Option Nat
  master_weight : Option Nat
  low_threshold : Option Nat
  med_threshold : Option Nat
  high_threshold : Option Nat
  home_domain : Option (LimitedString homeDomainMaxLength)
  signer : Option Signer
  deriving DecidableEq, Repr

/-- Model of `ManageDataOp` from `types.rs`: a bounded data name and an
optional data value (absent value = deletion marker). -/
structure ManageDataOp where
  data_name : LimitedString dataNameMaxLength
  data_value : Option DataValue
  deriving DecidableEq, Repr

/-- Model of `OperationBody` restricted to the variants the sources under
`src/` construct. -/
inductive OperationBody where
  | SetOptions (op : SetOptionsOp) : OperationBody
  | ManageData (op : ManageDataOp) : OperationBody
  | EndSponsoringFutureReserves : OperationBody
  deriving DecidableEq, Repr

/-- Model of `Operation` from `types.rs`: optional source-account override
plus the discriminated body. -/
structure Operation where
  source_account : Option MuxedAccount
  body : OperationBody
  deriving DecidableEq, Repr

/-- `Operation::new_set_options` from `src/xdr/impls/operations/set_options.rs`
lines 10-45: validates the home domain length, resolves the inflation
destination through the `IntoAccountId` capability, widens the `u8`
weight/threshold arguments to `u32`, and always sets `source_account := none`
(the constructor takes no source-account argument). -/
def Operation.new_set_options {T S : Type} [IntoAccountId T] [inst : AsRef S]
    (inflation_dest : Option T)
    (clear_flags : Option Nat)
    (set_flags : Option Nat)
    (master_weight : Option (Fin 256))
    (low_threshold : Option (Fin 256))
    (med_threshold : Option (Fin 256))
    (high_threshold : Option (Fin 256))
    (home_domain : Option S)
    (signer : Option Signer) : Except StellarSdkError Operation :=
  match mapTranspose
      (fun home_domain => LimitedString.new homeDomainMaxLength (inst.as_ref home_domain))
      home_domain with
  | Except.error e => Except.error e
  | Except.ok home_domain =>
    match mapTranspose IntoAccountId.into_account_id inflation_dest with
    | Except.error e => Except.error e
    | Except.ok inflation_dest =>
      Except.ok {
        source_account := none
        body := OperationBody.SetOptions {
          inflation_dest := inflation_dest
          clear_flags := clear_flags
          set_flags := set_flags
          master_weight := master_weight.map (fun weight => (weight : Fin 256).val)
          low_threshold := low_threshold.map (fun weight => (weight : Fin 256).val)
          med_threshold := med_threshold.map (fun weight => (weight : Fin 256).val)
          high_threshold := high_threshold.map (fun weight => (weight : Fin 256).val)
          home_domain := home_domain
          signer := signer } }

/-- `Operation::new_manage_data` from `src/xdr/impls/operations/manage_data.rs`
lines 10-30: resolves the optional source account through the
`IntoMuxedAccountId` capability, converts the optional value through
`AsDataValue`, and bounds the data name by the protocol string limit. -/
def Operation.new_manage_data {T S U : Type} [instT : AsRef T] [AsDataValue S]
    [IntoMuxedAccountId U]
    (source_account : Option U)
    (data_name : T)
    (data_value : Option S) : Except StellarSdkError Operation :=
  match mapTranspose IntoMuxedAccountId.into_muxed_account_id source_account with
  | Except.error e => Except.error e
  | Except.ok source_account =>
    match mapTranspose AsDataValue.as_data_value data_value with
    | Except.error e => Except.error e
    | Except.ok data_value =>
      match LimitedString.new dataNameMaxLength (instT.as_ref data_name) with
      | Except.error e => Except.error e
      | Except.ok data_name =>
        Except.ok {
          source_account := source_account
          body := OperationBody.ManageData {
            data_name := data_name
            data_value := data_value } }

/-- `impl IntoClaimbleBalanceId for ClaimableBalanceId`
(`src/xdr/impls/claimable_balance_id.rs` lines 7-11): the conversion is the
identity and always succeeds. -/
def ClaimableBalanceId.into_claimable_balance_id (self : ClaimableBalanceId) :
    Except StellarSdkError ClaimableBalanceId :=
  Except.ok self

/-- `ClaimableBalanceId::from_xdr` on a byte buffer. Modelled from the spec:
the binary codec (§4.1, not under `src/`) decodes a discriminated union as a
4-byte big-endian tag followed by the variant payload; the only variant of
`ClaimableBalanceId` has tag 0 and a 32-byte identifier (§3: a 4-byte type
tag + 32-byte identifier), and a bad tag or a length mismatch fails. -/
def ClaimableBalanceId.from_xdr (bytes : List Nat) :
    Except DecodeError ClaimableBalanceId :=
  match bytes with
  | 0 :: 0 :: 0 :: 0 :: rest =>
      if rest.length = 32 then
        Except.ok (ClaimableBalanceId.ClaimableBalanceIdTypeV0 rest)
      else Except.error DecodeError.wrongLength
  | _ => Except.error DecodeError.badDiscriminant

/-- Model of `AsBinary<T>`: a wrapper marking a raw byte input to be
interpreted as fixed-length binary data. Modelled from the spec:
`compound_types.rs` is not under `src/`; only the byte view matters here. -/
structure AsBinary where
  bytes : List Nat
  deriving DecidableEq, Repr

/-- Model of `AsBinary::as_binary::<N>`. Modelled from the spec: conversion
into an `N`-byte array fails with the `InvalidBinaryLength` error of
`src/error.rs` whenever the input's length differs from `N`. -/
def AsBinary.as_binary (self : AsBinary) (N : Nat) :
    Except StellarSdkError (List Nat) :=
  if self.bytes.length = N then Except.ok self.bytes
  else Except.error (StellarSdkError.InvalidBinaryLength self.bytes.length N)

/-- `impl IntoClaimbleBalanceId for AsBinary<T>`
(`src/xdr/impls/claimable_balance_id.rs` lines 13-19): obtain exactly
4 + 32 = 36 bytes, then decode them as XDR, mapping any decode failure to
`InvalidBalanceId`. -/
def AsBinary.into_claimable_balance_id (self : AsBinary) :
    Except StellarSdkError ClaimableBalanceId :=
  match self.as_binary (4 + 32) with
  | Except.error e => Except.error e
  | Except.ok balance_id =>
    match ClaimableBalanceId.from_xdr balance_id with
    | Except.ok v => Except.ok v
    | Except.error _ => Except.error StellarSdkError.InvalidBalanceId

/-- Model of `sp_runtime::offchain::http::Method` (only the variants the
sources use). -/
inductive Method where
  | Get : Method
  | Post : Method
  deriving DecidableEq, Repr

/-- Model of `sp_runtime::offchain::HttpError` (failure of sending the
request), variant for variant. -/
inductive HttpError where
  | DeadlineReached : HttpError
  | IoError : HttpError
  | Invalid : HttpError
  deriving DecidableEq, Repr

/-- Model of `sp_runtime::offchain::http::Error` (failure reported for a
completed wait), variant for variant; named `OffchainError` because `Error` is
too generic a name in Lean. -/
inductive OffchainError where
  | DeadlineReached : OffchainError
  | IoError : OffchainError
  | Unknown : OffchainError
  deriving DecidableEq, Repr

/-- `impl From<Error> for FetchError` (`src/horizon/fetch.rs` lines 56-64). -/
def FetchError.ofError : OffchainError → FetchError
  | OffchainError.DeadlineReached => FetchError.DeadlineReached
  | OffchainError.IoError => FetchError.IoError
  | OffchainError.Unknown => FetchError.Unknown

/-- `impl From<HttpError> for FetchError` (`src/horizon/fetch.rs` lines
72-80). -/
def FetchError.ofHttpError : HttpError → FetchError
  | HttpError.DeadlineReached => FetchError.DeadlineReached
  | HttpError.IoError => FetchError.IoError
  | HttpError.Invalid => FetchError.Invalid

/-- `impl From<serde_json::Error> for FetchError` (`src/horizon/fetch.rs`
lines 82-86): the payload is discarded. -/
def FetchError.ofSerdeJsonError (_e : Unit) : FetchError :=
  FetchError.JsonParseError

/-- Observable outcome of one offchain HTTP exchange, abstracting
`Request::send` / `PendingRequest::try_wait` of `sp_runtime`:
`sendFailed` is `send()` returning `Err(HttpError)`; `deadlinePassed` is
`try_wait` returning `Err(_)` (the deadline passed while waiting);
`waitFailed` is `try_wait` returning `Ok(Err(Error))`; `responded` is a
received response with its status code and body bytes. -/
inductive HttpOutcome where
  | sendFailed (e : HttpError) : HttpOutcome
  | deadlinePassed : HttpOutcome
  | waitFailed (e : OffchainError) : HttpOutcome
  | responded (code : Nat) (body : List Nat) : HttpOutcome

/-- The HTTP environment: what outcome the network produces for a given url,
method and timeout. The embedding passes it explicitly where the Rust code
calls the offchain runtime. -/
def HttpEnv : Type := List Nat → Method → Nat → HttpOutcome

/-- Model of the `Horizon` client (`src/horizon/mod.rs` lines 11-14); the
`ureq` agent is part of the ambient HTTP environment, not of the value. -/
structure Horizon where
  base_url : List Nat

/-- `Horizon::request` from `src/horizon/fetch.rs` lines 89-122: builds the
url from the base url and path segments, performs the exchange, maps a send
failure through `From<HttpError>`, a passed deadline to `DeadlineReached`, a
wait failure through `From<Error>`, rejects any status other than 200 with
`UnexpectedResponseStatus` carrying status and body, and otherwise returns the
body. -/
def buildUrl (base_url : List Nat) (path : List (List Nat)) : List Nat :=
  path.foldl (fun acc path_segment => acc ++ path_segment) base_url

def Horizon.request (self : Horizon) (path : List (List Nat)) (method : Method)
    (timeout_milliseconds : Nat) (env : HttpEnv) :
    Except FetchError (List Nat) :=
  match env (buildUrl self.base_url path) method timeout_milliseconds with
  | HttpOutcome.sendFailed e => Except.error (FetchError.ofHttpError e)
  | HttpOutcome.deadlinePassed => Except.error FetchError.DeadlineReached
  | HttpOutcome.waitFailed e => Except.error (FetchError.ofError e)
  | HttpOutcome.responded code body =>
      if code ≠ 200 then
        Except.error (FetchError.UnexpectedResponseStatus code body)
      else Except.ok body

/-- The bytes of an ASCII string literal (for the fixed path segments). -/
def strBytes (s : String) : List Nat :=
  s.toList.map Char.toNat

/-- `Horizon::fetch_fee_stats` from `src/horizon/fetch.rs` lines 127-133.
The serde decoding of the body into the raw JSON type `J` and the `TryInto`
conversion into the API type `F` are external capabilities passed as
functions; a decode failure goes through `From<serde_json::Error>`. -/
def Horizon.fetch_fee_stats {J F : Type} (self : Horizon)
    (timeout_milliseconds : Nat) (env : HttpEnv)
    (from_slice : List Nat → Option J)
    (try_into : J → Except FetchError F) : Except FetchError F :=
  match self.request [strBytes "/fee_stats"] Method.Get timeout_milliseconds env with
  | Except.error e => Except.error e
  | Except.ok json =>
    match from_slice json with
    | none => Except.error (FetchError.ofSerdeJsonError ())
    | some response => try_into response

/-- Model of `json_response_types::AccountResponse`. Modelled from the spec:
the account-state JSON includes the sequence number, which the source parses
from a string field; the other fields are irrelevant to the claims. -/
structure AccountResponse where
  sequence : String
  deriving DecidableEq, Repr

/-- `Horizon::fetch_account` from `src/horizon/fetch.rs` lines 138-152: the
account id is rendered through the `IntoAccountId` capability's encoding, the
body is serde-decoded into an `AccountResponse` (decode failure goes through
`From<serde_json::Error>`). -/
def Horizon.fetch_account {T : Type} [inst : IntoAccountId T] (self : Horizon)
    (account_id : T) (timeout_milliseconds : Nat) (env : HttpEnv)
    (from_slice : List Nat → Option AccountResponse) :
    Except FetchError AccountResponse :=
  match self.request [strBytes "/accounts/", inst.into_encoding account_id]
      Method.Get timeout_milliseconds env with
  | Except.error e => Except.error e
  | Except.ok json =>
    match from_slice json with
    | none => Except.error (FetchError.ofSerdeJsonError ())
    | some account_response => Except.ok account_response

/-- All-decimal-digits reading of a character list into a number; `none` for
an empty list or any non-digit character. -/
def digitsToNat (cs : List Char) : Option Nat :=
  if cs.isEmpty then none
  else cs.foldl (fun acc c =>
    match acc with
    | none => none
    | some n => if c.isDigit then some (n * 10 + (c.toNat - 48)) else none)
    (some 0)

/-- Modelled from the spec: parsing the sequence-number string "as a signed
64-bit integer" is Rust's `str::parse::<i64>`: an optional `+`/`-` sign
followed by at least one decimal digit, failing on empty input, any other
character, and any value outside `[-2^63, 2^63 - 1]`. -/
def parse_i64 (s : String) : Option Int :=
  match s.toList with
  | [] => none
  | c :: rest =>
      if c = '-' then
        match digitsToNat rest with
        | none => none
        | some n => if (n : Int) ≤ 9223372036854775808 then some (-(n : Int)) else none
      else if c = '+' then
        match digitsToNat rest with
        | none => none
        | some n => if (n : Int) ≤ 9223372036854775807 then some (n : Int) else none
      else
        match digitsToNat (c :: rest) with
        | none => none
        | some n => if (n : Int) ≤ 9223372036854775807 then some (n : Int) else none

/-- Wrapping of an integer into the two's-complement `i64` range, the
release-mode semantics of Rust's unchecked `+`. -/
def i64_wrap (z : Int) : Int :=
  (z + 9223372036854775808) % 18446744073709551616 - 9223372036854775808

/-- `Horizon::fetch_next_sequence_number` from `src/horizon/fetch.rs` lines
157-170: fetch the account, parse its `sequence` string as an `i64` (failure
is `InvalidSequenceNumber`), then return `sequence_number + 1`. The `+ 1` in
the source carries no overflow check, so it is the wrapping `i64` addition in
release builds (debug builds would panic at `i64::MAX`). -/
def Horizon.fetch_next_sequence_number {T : Type} [IntoAccountId T]
    (self : Horizon) (account_id : T) (timeout_milliseconds : Nat)
    (env : HttpEnv) (from_slice : List Nat → Option AccountResponse) :
    Except FetchError Int :=
  match self.fetch_account account_id timeout_milliseconds env from_slice with
  | Except.error e => Except.error e
  | Except.ok account_response =>
    match parse_i64 account_response.sequence with
    | some sequence_number => Except.ok (i64_wrap (sequence_number + 1))
    | none => Except.error FetchError.InvalidSequenceNumber

/-- `Operation::new_end_sponsoring_future_reserves` from
`src/xdr/impls/operations/end_sponsoring_future_reserves.rs` lines 4-13. -/
def Operation.new_end_sponsoring_future_reserves {T : Type} [IntoMuxedAccountId T]
    (source_account : Option T) : Except StellarSdkError Operation :=
  match mapTranspose IntoMuxedAccountId.into_muxed_account_id source_account with
  | Except.error e => Except.error e
  | Except.ok source_account =>
    Except.ok {
      source_account := source_account
      body := OperationBody.EndSponsoringFutureReserves }

/-! ## Helper lemmas -/

theorem mapTranspose_none {ε α β : Type} (f : α → Except ε β) :
    mapTranspose f none = Except.ok none := rfl

theorem mapTranspose_some_ok {ε α β : Type} {f : α → Except ε β} {a : α} {b : β}
    (h : f a = Except.ok b) : mapTranspose f (some a) = Except.ok (some b) := by
  simp [mapTranspose, h, Except.map]

theorem mapTranspose_some_err {ε α β : Type} {f : α → Except ε β} {a : α} {e : ε}
    (h : f a = Except.error e) : mapTranspose f (some a) = Except.error e := by
  simp [mapTranspose, h, Except.map]

theorem mapTranspose_ok_cases {ε α β : Type} {f : α → Except ε β} {o : Option α}
    {r : Option β} (h : mapTranspose f o = Except.ok r) :
    (o = none ∧ r = none) ∨ ∃ a b, o = some a ∧ f a = Except.ok b ∧ r = some b := by
  cases o with
  | none =>
    left
    cases h
    exact ⟨rfl, rfl⟩
  | some a =>
    right
    cases hfa : f a with
    | error e => rw [mapTranspose_some_err hfa] at h; exact Except.noConfusion h
    | ok b =>
      rw [mapTranspose_some_ok hfa] at h
      injection h with h
      exact ⟨a, b, rfl, hfa, h.symm⟩

theorem LimitedString.new_ok {N : Nat} {bytes : List Nat} (h : bytes.length ≤ N) :
    LimitedString.new N bytes = Except.ok ⟨bytes⟩ := by
  simp [LimitedString.new, h]

theorem LimitedString.new_err {N : Nat} {bytes : List Nat} (h : ¬ bytes.length ≤ N) :
    LimitedString.new N bytes
      = Except.error (StellarSdkError.ExceedsMaximumLength bytes.length (Int.ofNat N)) := by
  simp [LimitedString.new, h]

/-- Every successfully constructed set-options operation has
`source_account = none`: the constructor takes no source-account argument and
hardcodes the field (`src/xdr/impls/operations/set_options.rs` line 32). -/
theorem set_options_source_account_none {T S : Type} [IntoAccountId T] [AsRef S]
    (inflation_dest : Option T) (clear_flags set_flags : Option Nat)
    (master_weight low_threshold med_threshold high_threshold : Option (Fin 256))
    (home_domain : Option S) (signer : Option Signer) (op : Operation)
    (hok : Operation.new_set_options inflation_dest clear_flags set_flags
      master_weight low_threshold med_threshold high_threshold home_domain signer
      = Except.ok op) :
    op.source_account = none := by
  unfold Operation.new_set_options at hok
  split at hok
  · exact Except.noConfusion hok
  · split at hok
    · exact Except.noConfusion hok
    · injection hok with h
      subst h
      rfl

/-! ## Claim C1 -/

/-- Claim C1 as stated is false for `new_set_options`: that constructor takes
no source-account argument at all, so no choice of arguments ever produces an
operation whose `source_account` field is set — refuting "for every operation
constructor, the caller may supply an optional source-account override ...
this holds for each of new_manage_data, new_end_sponsoring_future_reserves,
and new_set_options". -/
theorem C1_counterexample :
    ¬ ∃ (inflation_dest : Option AccountId) (clear_flags set_flags : Option Nat)
      (master_weight low_threshold med_threshold high_threshold : Option (Fin 256))
      (home_domain : Option (List Nat)) (signer : Option Signer) (op : Operation),
      Operation.new_set_options inflation_dest clear_flags set_flags master_weight
        low_threshold med_threshold high_threshold home_domain signer = Except.ok op
      ∧ op.source_account ≠ none := by
  rintro ⟨d, cf, sf, mw, lo, me, hi, hd, sg, op, hok, hne⟩
  exact hne (set_options_source_account_none d cf sf mw lo me hi hd sg op hok)

/-- Claim C1 (amended): `new_manage_data` and
`new_end_sponsoring_future_reserves` take an optional source-account override
resolved through the muxed-account capability — `some x` with `x` resolving to
`m` yields `source_account = some m`, `none` yields `source_account = none` —
while `new_set_options` takes no source-account argument and every operation
it constructs has `source_account = none`. -/
theorem C1_theorem {U : Type} [IntoMuxedAccountId U] (x : U) (m : MuxedAccount)
    (hx : IntoMuxedAccountId.into_muxed_account_id x = Except.ok m)
    {T S : Type} [AsRef T] [AsDataValue S] (data_name : T) (data_value : Option S)
    (op1 op2 : Operation) :
    (Operation.new_manage_data (some x) data_name data_value = Except.ok op1 →
      op1.source_account = some m)
    ∧ (Operation.new_manage_data (none : Option U) data_name data_value = Except.ok op2 →
      op2.source_account = none)
    ∧ (Operation.new_end_sponsoring_future_reserves (some x)
      = Except.ok { source_account := some m
                    body := OperationBody.EndSponsoringFutureReserves })
    ∧ (Operation.new_end_sponsoring_future_reserves (none : Option U)
      = Except.ok { source_account := none
                    body := OperationBody.EndSponsoringFutureReserves })
    ∧ (∀ {T2 S2 : Type} [IntoAccountId T2] [AsRef S2] (inflation_dest : Option T2)
        (clear_flags set_flags : Option Nat)
        (master_weight low_threshold med_threshold high_threshold : Option (Fin 256))
        (home_domain : Option S2) (signer : Option Signer) (op : Operation),
        Operation.new_set_options inflation_dest clear_flags set_flags master_weight
          low_threshold med_threshold high_threshold home_domain signer = Except.ok op →
        op.source_account = none) := by
  refine ⟨?_, ?_, ?_, ?_, ?_⟩
  · intro hok
    unfold Operation.new_manage_data at hok
    rw [mapTranspose_some_ok hx] at hok
    split at hok
    · exact Except.noConfusion hok
    · split at hok
      · exact Except.noConfusion hok
      · split at hok
        · exact Except.noConfusion hok
        · injection hok with h
          subst h
          simp_all
  · intro hok
    unfold Operation.new_manage_data at hok
    rw [mapTranspose_none] at hok
    split at hok
    · exact Except.noConfusion hok
    · split at hok
      · exact Except.noConfusion hok
      · split at hok
        · exact Except.noConfusion hok
        · injection hok with h
          subst h
          simp_all
  · unfold Operation.new_end_sponsoring_future_reserves
    rw [mapTranspose_some_ok hx]
  · rfl
  · intro T2 S2 i1 i2 inflation_dest clear_flags set_flags mw lo me hi hd sg op hok
    exact set_options_source_account_none inflation_dest clear_flags set_flags
      mw lo me hi hd sg op hok

/-- Witness for C1: the amended theorem applied at a concrete muxed account,
data name and absent data value. -/
theorem C1_witness :
    ({ source_account := some (MuxedAccount.KeyTypeEd25519 [1])
       body := OperationBody.ManageData { data_name := ⟨[7]⟩, data_value := none } } :
      Operation).source_account = some (MuxedAccount.KeyTypeEd25519 [1]) :=
  (C1_theorem (MuxedAccount.KeyTypeEd25519 [1]) (MuxedAccount.KeyTypeEd25519 [1]) rfl
    ([7] : List Nat) (none : Option DataValue)
    { source_account := some (MuxedAccount.KeyTypeEd25519 [1])
      body := OperationBody.ManageData { data_name := ⟨[7]⟩, data_value := none } }
    { source_account := none
      body := OperationBody.ManageData { data_name := ⟨[7]⟩, data_value := none } }).1
    rfl

/-! ## Claim C2 -/

/-- Claim C2: `new_set_options` performs no cross-field validation — whenever
the home domain (if present) is within the protocol string limit and the
inflation destination (if present) converts to an account id, the constructor
succeeds, regardless of the values of `master_weight`, `low_threshold`,
`med_threshold` and `high_threshold`. -/
theorem C2_theorem {T S : Type} [IntoAccountId T] [inst : AsRef S]
    (inflation_dest : Option T) (clear_flags set_flags : Option Nat)
    (master_weight low_threshold med_threshold high_threshold : Option (Fin 256))
    (home_domain : Option S) (signer : Option Signer)
    (hdom : ∀ hd, home_domain = some hd → (inst.as_ref hd).length ≤ homeDomainMaxLength)
    (hdest : ∀ d, inflation_dest = some d →
      ∃ a, IntoAccountId.into_account_id d = Except.ok a) :
    ∃ op, Operation.new_set_options inflation_dest clear_flags set_flags master_weight
      low_threshold med_threshold high_threshold home_domain signer = Except.ok op := by
  unfold Operation.new_set_options
  have hdomeq : ∃ r, mapTranspose
      (fun home_domain => LimitedString.new homeDomainMaxLength (inst.as_ref home_domain))
      home_domain = Except.ok r := by
    cases home_domain with
    | none => exact ⟨none, rfl⟩
    | some hd =>
      exact ⟨some ⟨inst.as_ref hd⟩,
        mapTranspose_some_ok (LimitedString.new_ok (hdom hd rfl))⟩
  have hdesteq : ∃ r, mapTranspose IntoAccountId.into_account_id inflation_dest
      = Except.ok r := by
    cases inflation_dest with
    | none => exact ⟨none, rfl⟩
    | some d =>
      obtain ⟨a, ha⟩ := hdest d rfl
      exact ⟨some a, mapTranspose_some_ok ha⟩
  obtain ⟨r1, h1⟩ := hdomeq
  obtain ⟨r2, h2⟩ := hdesteq
  rw [h1, h2]
  exact ⟨_, rfl⟩

/-- Witness for C2: a concrete set-options call with `low_threshold = 200`
strictly greater than `high_threshold = 1` still succeeds. -/
theorem C2_witness :
    ∃ op, Operation.new_set_options (none : Option AccountId) none none none
      (some (200 : Fin 256)) none (some (1 : Fin 256)) (none : Option (List Nat)) none
      = Except.ok op :=
  C2_theorem (none : Option AccountId) none none none (some (200 : Fin 256)) none
    (some (1 : Fin 256)) (none : Option (List Nat)) none
    (fun _ h => nomatch h) (fun _ h => nomatch h)

/-! ## Claim C3 -/

/-- Claim C3: `new_manage_data` bounds the data name to the protocol string
limit — a data name longer than the limit never yields a success, and with
resolving source account and data value it fails precisely with
`ExceedsMaximumLength`; a data name within the limit together with a
convertible source account and a valid data value yields a success; an absent
data value is kept as `none` (the deletion marker) in the constructed
`ManageData` body, and a present one carries the converted value. -/
theorem C3_theorem {T S U : Type} [instT : AsRef T] [AsDataValue S] [IntoMuxedAccountId U]
    (source_account : Option U) (data_name : T) (data_value : Option S) :
    (dataNameMaxLength < (instT.as_ref data_name).length →
      (∀ op, Operation.new_manage_data source_account data_name data_value
        ≠ Except.ok op)
      ∧ (∀ sa dv, mapTranspose IntoMuxedAccountId.into_muxed_account_id source_account
          = Except.ok sa →
        mapTranspose AsDataValue.as_data_value data_value = Except.ok dv →
        Operation.new_manage_data source_account data_name data_value
          = Except.error (StellarSdkError.ExceedsMaximumLength
              (instT.as_ref data_name).length (Int.ofNat dataNameMaxLength))))
    ∧ ((instT.as_ref data_name).length ≤ dataNameMaxLength →
      (∀ x, source_account = some x →
        ∃ m, IntoMuxedAccountId.into_muxed_account_id x = Except.ok m) →
      (∀ v, data_value = some v → ∃ w, AsDataValue.as_data_value v = Except.ok w) →
      ∃ op, Operation.new_manage_data source_account data_name data_value
        = Except.ok op)
    ∧ (∀ op mdop, Operation.new_manage_data source_account data_name data_value
        = Except.ok op →
      op.body = OperationBody.ManageData mdop →
      (data_value = none → mdop.data_value = none)
      ∧ (∀ v w, data_value = some v → AsDataValue.as_data_value v = Except.ok w →
        mdop.data_value = some w)) := by
  refine ⟨fun hlong => ⟨?_, ?_⟩, ?_, ?_⟩
  · intro op hok
    unfold Operation.new_manage_data at hok
    split at hok
    · exact Except.noConfusion hok
    · split at hok
      · exact Except.noConfusion hok
      · rw [LimitedString.new_err (by omega)] at hok
        exact Except.noConfusion hok
  · intro sa dv hsa hdv
    unfold Operation.new_manage_data
    rw [hsa, hdv, LimitedString.new_err (by omega)]
  · intro hlen hsrc hval
    have hsaeq : ∃ sa, mapTranspose IntoMuxedAccountId.into_muxed_account_id
        source_account = Except.ok sa := by
      cases source_account with
      | none => exact ⟨none, rfl⟩
      | some x =>
        obtain ⟨m, hm⟩ := hsrc x rfl
        exact ⟨some m, mapTranspose_some_ok hm⟩
    have hdveq : ∃ dv, mapTranspose AsDataValue.as_data_value data_value
        = Except.ok dv := by
      cases data_value with
      | none => exact ⟨none, rfl⟩
      | some v =>
        obtain ⟨w, hw⟩ := hval v rfl
        exact ⟨some w, mapTranspose_some_ok hw⟩
    obtain ⟨sa, hsa⟩ := hsaeq
    obtain ⟨dv, hdv⟩ := hdveq
    unfold Operation.new_manage_data
    rw [hsa, hdv, LimitedString.new_ok hlen]
    exact ⟨_, rfl⟩
  · intro op mdop hok hbody
    unfold Operation.new_manage_data at hok
    split at hok
    next => exact Except.noConfusion hok
    next sa heqsa =>
      split at hok
      next => exact Except.noConfusion hok
      next dv heqdv =>
        split at hok
        next => exact Except.noConfusion hok
        next dn heqdn =>
          injection hok with h
          subst h
          simp only [Operation.body] at hbody
          injection hbody with h2
          subst h2
          constructor
          · intro hnone
            subst hnone
            rw [mapTranspose_none] at heqdv
            injection heqdv with h3
            simp [← h3]
          · intro v w hsome hw
            subst hsome
            rw [mapTranspose_some_ok hw] at heqdv
            injection heqdv with h3
            simp [← h3]

/-- Witness for C3: the amended hypotheses discharged at a data name of one
byte, a concrete muxed source account and a concrete data value. -/
theorem C3_witness :
    ∃ op, Operation.new_manage_data (some (MuxedAccount.KeyTypeEd25519 [2]))
      ([5] : List Nat) (some (DataValue.mk [9])) = Except.ok op :=
  (C3_theorem (some (MuxedAccount.KeyTypeEd25519 [2])) ([5] : List Nat)
    (some (DataValue.mk [9]))).2.1 (by decide)
    (fun x h => ⟨MuxedAccount.KeyTypeEd25519 [2], by cases h; rfl⟩)
    (fun v h => ⟨DataValue.mk [9], by cases h; rfl⟩)

/-! ## Claim C4 -/

/-- Claim C4: in every successfully constructed set-options operation, each of
`master_weight`, `low_threshold`, `med_threshold` and `high_threshold`, when
present, lies in 0–255: the inputs are 8-bit values widened to 32 bits. -/
theorem C4_theorem {T S : Type} [IntoAccountId T] [AsRef S]
    (inflation_dest : Option T) (clear_flags set_flags : Option Nat)
    (master_weight low_threshold med_threshold high_threshold : Option (Fin 256))
    (home_domain : Option S) (signer : Option Signer) (op : Operation)
    (s : SetOptionsOp)
    (hok : Operation.new_set_options inflation_dest clear_flags set_flags master_weight
      low_threshold med_threshold high_threshold home_domain signer = Except.ok op)
    (hbody : op.body = OperationBody.SetOptions s) :
    (∀ w, s.master_weight = some w → w ≤ 255)
    ∧ (∀ w, s.low_threshold = some w → w ≤ 255)
    ∧ (∀ w, s.med_threshold = some w → w ≤ 255)
    ∧ (∀ w, s.high_threshold = some w → w ≤ 255) := by
  unfold Operation.new_set_options at hok
  split at hok
  · exact Except.noConfusion hok
  · split at hok
    · exact Except.noConfusion hok
    · injection hok with h
      subst h
      simp only [Operation.body] at hbody
      injection hbody with h2
      subst h2
      refine ⟨?_, ?_, ?_, ?_⟩
      · intro w hw
        cases master_weight with
        | none => exact Option.noConfusion hw
        | some f => simp at hw; omega
      · intro w hw
        cases low_threshold with
        | none => exact Option.noConfusion hw
        | some f => simp at hw; omega
      · intro w hw
        cases med_threshold with
        | none => exact Option.noConfusion hw
        | some f => simp at hw; omega
      · intro w hw
        cases high_threshold with
        | none => exact Option.noConfusion hw
        | some f => simp at hw; omega

/-- Witness for C4: the bound read off a concrete successful construction with
all four fields set to 255. -/
theorem C4_witness :
    (SetOptionsOp.mk none none none (some 255) (some 255) (some 255) (some 255)
      none none).master_weight = some 255 ∧ (255 : Nat) ≤ 255 := by
  have h := C4_theorem (none : Option AccountId) none none
    (some (255 : Fin 256)) (some (255 : Fin 256)) (some (255 : Fin 256))
    (some (255 : Fin 256)) (none : Option (List Nat)) none
    { source_account := none
      body := OperationBody.SetOptions (SetOptionsOp.mk none none none (some 255)
        (some 255) (some 255) (some 255) none none) }
    (SetOptionsOp.mk none none none (some 255) (some 255) (some 255) (some 255)
      none none) rfl rfl
  exact ⟨rfl, h.1 255 rfl⟩

/-! ## Claim C5 -/

/-- Claim C5: `Horizon::request` returns the raw body exactly when the status
is 200 and otherwise fails with an error carrying both status and raw body;
in `fetch_fee_stats` and `fetch_account` a received body that fails JSON
decoding yields `JsonParseError`, which is distinct from every
network-failure value (`DeadlineReached`, `IoError`, `Invalid`, `Unknown`). -/
theorem C5_theorem (h : Horizon) (t : Nat) (env : HttpEnv) :
    (∀ (path : List (List Nat)) (method : Method) (code : Nat) (body : List Nat),
      env (buildUrl h.base_url path) method t = HttpOutcome.responded code body →
      (code = 200 → h.request path method t env = Except.ok body)
      ∧ (code ≠ 200 → h.request path method t env
          = Except.error (FetchError.UnexpectedResponseStatus code body)))
    ∧ (∀ {J F : Type} (from_slice : List Nat → Option J)
        (try_into : J → Except FetchError F) (json : List Nat),
      h.request [strBytes "/fee_stats"] Method.Get t env = Except.ok json →
      from_slice json = none →
      h.fetch_fee_stats t env from_slice try_into
        = Except.error FetchError.JsonParseError)
    ∧ (∀ {T : Type} [inst : IntoAccountId T] (account_id : T)
        (from_slice : List Nat → Option AccountResponse) (json : List Nat),
      h.request [strBytes "/accounts/", inst.into_encoding account_id]
        Method.Get t env = Except.ok json →
      from_slice json = none →
      h.fetch_account account_id t env from_slice
        = Except.error FetchError.JsonParseError)
    ∧ (FetchError.JsonParseError ≠ FetchError.DeadlineReached
      ∧ FetchError.JsonParseError ≠ FetchError.IoError
      ∧ FetchError.JsonParseError ≠ FetchError.Invalid
      ∧ FetchError.JsonParseError ≠ FetchError.Unknown) := by
  refine ⟨?_, ?_, ?_, by decide, by decide, by decide, by decide⟩
  · intro path method code body hresp
    constructor
    · intro h200
      subst h200
      unfold Horizon.request
      rw [hresp]
      simp
    · intro hne
      unfold Horizon.request
      rw [hresp]
      simp [hne]
  · intro J F from_slice try_into json hreq hnone
    unfold Horizon.fetch_fee_stats
    rw [hreq]
    simp [hnone, FetchError.ofSerdeJsonError]
  · intro T inst account_id from_slice json hreq hnone
    unfold Horizon.fetch_account
    rw [hreq]
    simp [hnone, FetchError.ofSerdeJsonError]

/-- Witness for C5: a concrete 404 response surfaces its status code and raw
body. -/
theorem C5_witness :
    Horizon.request (Horizon.mk []) [] Method.Get 0
      (fun _ _ _ => HttpOutcome.responded 404 [1, 2])
      = Except.error (FetchError.UnexpectedResponseStatus 404 [1, 2]) :=
  ((C5_theorem (Horizon.mk []) 0 (fun _ _ _ => HttpOutcome.responded 404 [1, 2])).1
    [] Method.Get 404 [1, 2] rfl).2 (by decide)

/-! ## Claim C6 -/

/-- Claim C6: deadline expiry while sending (`send` fails with
`HttpError::DeadlineReached`), while waiting (`try_wait` reports the deadline
passed), or as the reported failure of a completed wait
(`Error::DeadlineReached`), always surfaces as `FetchError::DeadlineReached`,
never as a generic I/O or unknown error; and a body is only ever returned for
a fully received response, so no partial body escapes on a deadline path. -/
theorem C6_theorem (h : Horizon) (path : List (List Nat)) (method : Method)
    (t : Nat) (env : HttpEnv) :
    (env (buildUrl h.base_url path) method t
        = HttpOutcome.sendFailed HttpError.DeadlineReached →
      h.request path method t env = Except.error FetchError.DeadlineReached)
    ∧ (env (buildUrl h.base_url path) method t = HttpOutcome.deadlinePassed →
      h.request path method t env = Except.error FetchError.DeadlineReached)
    ∧ (env (buildUrl h.base_url path) method t
        = HttpOutcome.waitFailed OffchainError.DeadlineReached →
      h.request path method t env = Except.error FetchError.DeadlineReached)
    ∧ (∀ body, h.request path method t env = Except.ok body →
      ∃ code, env (buildUrl h.base_url path) method t
        = HttpOutcome.responded code body) := by
  refine ⟨?_, ?_, ?_, ?_⟩
  · intro hout
    simp [Horizon.request, hout, FetchError.ofHttpError]
  · intro hout
    simp [Horizon.request, hout]
  · intro hout
    simp [Horizon.request, hout, FetchError.ofError]
  · intro body hok
    unfold Horizon.request at hok
    cases henv : env (buildUrl h.base_url path) method t with
    | sendFailed e => rw [henv] at hok; exact Except.noConfusion hok
    | deadlinePassed => rw [henv] at hok; exact Except.noConfusion hok
    | waitFailed e => rw [henv] at hok; exact Except.noConfusion hok
    | responded code body2 =>
      rw [henv] at hok
      by_cases hc : code = 200
      · subst hc
        simp at hok
        exact ⟨200, by rw [hok]⟩
      · simp [hc] at hok

/-- Witness for C6: a concrete environment whose wait never completes yields
`DeadlineReached`. -/
theorem C6_witness :
    Horizon.request (Horizon.mk []) [] Method.Get 5
      (fun _ _ _ => HttpOutcome.deadlinePassed)
      = Except.error FetchError.DeadlineReached :=
  (C6_theorem (Horizon.mk []) [] Method.Get 5
    (fun _ _ _ => HttpOutcome.deadlinePassed)).2.1 rfl

/-! ## Claim C7 -/

/-- Claim C7 as stated is false: `StellarSdkError` does carry network-error
cases — the value `StellarSdkError.FetchError FetchError.IoError`, produced by
the `From<FetchError>` conversion, is a core-error value wrapping a Network
Client error. -/
theorem C7_counterexample :
    StellarSdkError.carriesFetchError (StellarSdkError.ofFetchError FetchError.IoError)
      = true := rfl

/-- Claim C7 (amended): `StellarSdkError` includes a feature-conditional
`FetchError` variant wrapping the Network Client's error type, and
`From<FetchError>` injects every fetch error into it; the composition
described by the spec is a design recommendation, not the implemented
behavior. -/
theorem C7_theorem (e : HorizonFetchError) :
    StellarSdkError.ofFetchError e = StellarSdkError.FetchError e
    ∧ StellarSdkError.carriesFetchError (StellarSdkError.ofFetchError e) = true :=
  ⟨rfl, rfl⟩

/-! ## Claim C8 -/

/-- Claim C8: converting a binary input into a `ClaimableBalanceId` requires
exactly 36 bytes (4-byte type tag + 32-byte identifier); any other length is
rejected by the `as_binary` step with `InvalidBinaryLength`, a 36-byte input
whose XDR decoding fails is rejected with `InvalidBalanceId`, and a 36-byte
input that decodes yields the decoded value. -/
theorem C8_theorem (a : AsBinary) :
    (a.bytes.length ≠ 36 →
      a.into_claimable_balance_id
        = Except.error (StellarSdkError.InvalidBinaryLength a.bytes.length 36))
    ∧ (∀ e, a.bytes.length = 36 →
      ClaimableBalanceId.from_xdr a.bytes = Except.error e →
      a.into_claimable_balance_id = Except.error StellarSdkError.InvalidBalanceId)
    ∧ (∀ v, a.bytes.length = 36 →
      ClaimableBalanceId.from_xdr a.bytes = Except.ok v →
      a.into_claimable_balance_id = Except.ok v) := by
  refine ⟨?_, ?_, ?_⟩
  · intro hne
    unfold AsBinary.into_claimable_balance_id AsBinary.as_binary
    simp [hne]
  · intro e h36 he
    unfold AsBinary.into_claimable_balance_id AsBinary.as_binary
    simp [h36, he]
  · intro v h36 hv
    unfold AsBinary.into_claimable_balance_id AsBinary.as_binary
    simp [h36, hv]

/-- Witness for C8: a concrete 36-byte input with tag 0 decodes to the
identifier it carries. -/
theorem C8_witness :
    AsBinary.into_claimable_balance_id ⟨[0, 0, 0, 0] ++ List.replicate 32 7⟩
      = Except.ok (ClaimableBalanceId.ClaimableBalanceIdTypeV0 (List.replicate 32 7)) :=
  (C8_theorem ⟨[0, 0, 0, 0] ++ List.replicate 32 7⟩).2.2
    (ClaimableBalanceId.ClaimableBalanceIdTypeV0 (List.replicate 32 7)) rfl rfl

/-! ## Claim C9 -/

/-- Claim C9: `into_claimable_balance_id` on a value that is already a
`ClaimableBalanceId` is the identity and always succeeds. -/
theorem C9_theorem (v : ClaimableBalanceId) :
    v.into_claimable_balance_id = Except.ok v := rfl

/-! ## Claim C10 -/

theorem parse_i64_range {s : String} {n : Int} (h : parse_i64 s = some n) :
    -9223372036854775808 ≤ n ∧ n ≤ 9223372036854775807 := by
  unfold parse_i64 at h
  split at h
  next => exact Option.noConfusion h
  next c rest hcons =>
    by_cases hminus : c = '-'
    · rw [if_pos hminus] at h
      split at h
      next => exact Option.noConfusion h
      next k heq =>
        split at h
        next hle =>
          injection h with h
          omega
        next => exact Option.noConfusion h
    · rw [if_neg hminus] at h
      by_cases hplus : c = '+'
      · rw [if_pos hplus] at h
        split at h
        next => exact Option.noConfusion h
        next k heq =>
          split at h
          next hle =>
            injection h with h
            omega
          next => exact Option.noConfusion h
      · rw [if_neg hplus] at h
        split at h
        next => exact Option.noConfusion h
        next k heq =>
          split at h
          next hle =>
            injection h with h
            omega
          next => exact Option.noConfusion h

theorem i64_wrap_eq_self {z : Int} (h1 : -9223372036854775808 ≤ z)
    (h2 : z ≤ 9223372036854775807) : i64_wrap z = z := by
  unfold i64_wrap
  omega

/-- Claim C10 as stated is false at `i64::MAX`: with an account response whose
sequence string is "9223372036854775807", the unchecked `+ 1` wraps, so the
result is `Ok(i64::MIN)` and not `Ok(n + 1)`. -/
theorem C10_counterexample :
    Horizon.fetch_next_sequence_number (Horizon.mk []) (AccountId.PublicKeyTypeEd25519 [])
        7 (fun _ _ _ => HttpOutcome.responded 200 [])
        (fun _ => some { sequence := "9223372036854775807" })
      = Except.ok (-9223372036854775808)
    ∧ (-9223372036854775808 : Int) ≠ 9223372036854775807 + 1 :=
  ⟨rfl, by omega⟩

/-- Claim C10 (amended): once the account response is fetched,
`fetch_next_sequence_number` parses its sequence string as an `i64` and
returns that value plus one for every parsed `n < i64::MAX`; at `n = i64::MAX`
the unchecked increment wraps to `i64::MIN` (a debug build would panic); a
sequence string that does not parse as an `i64` fails with
`InvalidSequenceNumber`. -/
theorem C10_theorem {T : Type} [IntoAccountId T] (h : Horizon) (account_id : T)
    (t : Nat) (env : HttpEnv) (from_slice : List Nat → Option AccountResponse)
    (resp : AccountResponse)
    (hacct : h.fetch_account account_id t env from_slice = Except.ok resp) :
    (∀ n, parse_i64 resp.sequence = some n → n < 9223372036854775807 →
      h.fetch_next_sequence_number account_id t env from_slice = Except.ok (n + 1))
    ∧ (parse_i64 resp.sequence = some 9223372036854775807 →
      h.fetch_next_sequence_number account_id t env from_slice
        = Except.ok (-9223372036854775808))
    ∧ (parse_i64 resp.sequence = none →
      h.fetch_next_sequence_number account_id t env from_slice
        = Except.error FetchError.InvalidSequenceNumber) := by
  refine ⟨?_, ?_, ?_⟩
  · intro n hp hlt
    have hr := parse_i64_range hp
    unfold Horizon.fetch_next_sequence_number
    rw [hacct]
    simp only [hp]
    rw [i64_wrap_eq_self (by omega) (by omega)]
  · intro hp
    unfold Horizon.fetch_next_sequence_number
    rw [hacct]
    simp only [hp]
    norm_num [i64_wrap]
  · intro hp
    unfold Horizon.fetch_next_sequence_number
    rw [hacct]
    simp only [hp]

/-- Witness for C10: a concrete environment returning sequence "5" yields 6. -/
theorem C10_witness :
    Horizon.fetch_next_sequence_number (Horizon.mk []) (AccountId.PublicKeyTypeEd25519 [])
        7 (fun _ _ _ => HttpOutcome.responded 200 [])
        (fun _ => some { sequence := "5" })
      = Except.ok 6 :=
  (C10_theorem (Horizon.mk []) (AccountId.PublicKeyTypeEd25519 []) 7
    (fun _ _ _ => HttpOutcome.responded 200 [])
    (fun _ => some { sequence := "5" }) { sequence := "5" } rfl).1 5 rfl (by norm_num)
